import Mathlib

/- Shallow embedding of the TestLink natural-language agent
   (src/mcp-api/testlink_api.py and src/mcp-api/demo_api.py).

   Python exceptions are modelled with `Except String`; every facade
   (XML-RPC client) call, handler dispatch and language-model call is
   recorded as an event so that "the facade is never called" and
   "no handler is invoked" are observable.  Python `None` arguments are
   `Option`; Python falsiness of ids (0) and strings ("") is modelled
   explicitly where the source tests `if not x`. -/

namespace TLApi

/-- Observable events of one request: a remote facade call (with its
    arguments rendered as strings), the dispatch of a named action
    handler, or the single language-model network call. -/
inductive Ev where
  | remote (name : String) (args : List String)
  | handler (name : String)
  | modelCall
deriving DecidableEq, Repr

/-- Instrumented exception monad: result-or-raised-exception paired with
    the trace of events that happened before returning/raising. -/
def TL (α : Type) : Type := Except String α × List Ev

def TL.bind {α β : Type} (m : TL α) (f : α → TL β) : TL β :=
  match m with
  | (Except.error e, t) => (Except.error e, t)
  | (Except.ok a, t) =>
      match f a with
      | (r, t2) => (r, t ++ t2)

instance : Monad TL where
  pure a := (Except.ok a, [])
  bind := TL.bind

/-- A facade call: records the event and yields the oracle's outcome. -/
def callF {α : Type} (name : String) (args : List String) (r : Except String α) : TL α :=
  (r, [Ev.remote name args])

/-- Raising a Python exception. -/
def raiseTL {α : Type} (e : String) : TL α :=
  (Except.error e, [])

/-- Lift an already-total (event-producing) computation into `TL`. -/
def liftTot {α : Type} (p : α × List Ev) : TL α :=
  (Except.ok p.1, p.2)

@[simp] theorem tl_bind_eq {α β : Type} (m : TL α) (f : α → TL β) :
    (m >>= f) = TL.bind m f := rfl

@[simp] theorem tl_pure_eq {α : Type} (a : α) :
    (pure a : TL α) = (Except.ok a, []) := rfl

@[simp] theorem tl_bind_err {α β : Type} (e : String) (t : List Ev) (f : α → TL β) :
    TL.bind (Except.error e, t) f = (Except.error e, t) := rfl

@[simp] theorem tl_bind_ok {α β : Type} (a : α) (t : List Ev) (f : α → TL β) :
    TL.bind (Except.ok a, t) f = ((f a).1, t ++ (f a).2) := by
  show TL.bind (Except.ok a, t) f = ((f a).1, t ++ (f a).2)
  unfold TL.bind
  cases h : f a with
  | mk r t2 => simp [h]

/-- Python `try: return body except Exception as e: return onErr(e)`
    around a handler body that must produce an `ActionResult`-like value. -/
def runH {α : Type} (m : TL α) (onErr : String → α) : α × List Ev :=
  match m with
  | (Except.ok r, t) => (r, t)
  | (Except.error e, t) => (onErr e, t)

/-- Python inner `try`/`except` that resumes with a fallback computation. -/
def catchTL {α : Type} (m : TL α) (h : String → TL α) : TL α :=
  match m with
  | (Except.ok a, t) => (Except.ok a, t)
  | (Except.error e, t) =>
      match h e with
      | (r, t2) => (r, t ++ t2)

/-- `try: body except: pass; return None` of the resolver helpers. -/
def swallow {α : Type} (m : TL (Option α)) : Option α × List Ev :=
  match m with
  | (Except.ok v, t) => (v, t)
  | (Except.error _, t) => (none, t)

/-- `pat` is a prefix of `hay` (character lists). -/
def charsHasPre : List Char → List Char → Bool
  | [], _ => true
  | _ :: _, [] => false
  | a :: as, b :: bs => a == b && charsHasPre as bs

/-- Python `pat in hay` substring test on character lists. -/
def charsContains : List Char → List Char → Bool
  | _, [] => true
  | [], _ :: _ => false
  | h :: hs, p :: ps => charsHasPre (p :: ps) (h :: hs) || charsContains hs (p :: ps)

/-- Python `pat in hay` for strings. -/
def strContains (hay pat : String) : Bool :=
  charsContains hay.data pat.data

/-- Python `s.lower()` (character-wise, structurally recursive so that
    concrete instances reduce inside the kernel). -/
def lowerStr (s : String) : String :=
  String.mk (s.data.map Char.toLower)

/-- Python `s.split()` restricted to spaces: word tokens, empties dropped. -/
def wordsAux : List Char → List Char → List String
  | [], acc => if acc.isEmpty then [] else [String.mk acc.reverse]
  | ch :: rest, acc =>
      if ch == ' ' then
        if acc.isEmpty then wordsAux rest []
        else String.mk acc.reverse :: wordsAux rest []
      else wordsAux rest (ch :: acc)

/-- Python `s.split()` (space-separated words). -/
def pyWords (s : String) : List String :=
  wordsAux s.data []

/-- Python `w[0].upper()` for a word. -/
def upperFirst (w : String) : String :=
  String.mk ((w.data.take 1).map Char.toUpper)

/-- Python `x.lower()` where `x` may be `None` (raises `AttributeError`). -/
def pyLower : Option String → TL String
  | none => raiseTL "AttributeError: NoneType has no attribute lower"
  | some s => pure (lowerStr s)

/-- Render a possibly-`None` string like Python string interpolation does. -/
def pyStr : Option String → String
  | none => "None"
  | some s => s

/-- Python `x or d` for an optional string (`None` and `""` are falsy). -/
def pyOrS (x : Option String) (d : String) : String :=
  match x with
  | none => d
  | some s => if s = "" then d else s

/-- Python `x or ...` keeping an optional string only when truthy. -/
def pyTruthy (x : Option String) : Option String :=
  match x with
  | none => none
  | some s => if s = "" then none else some s

/-- Python falsiness of a possibly-missing numeric id (`if not project_id`). -/
def optFalsy (o : Option Nat) : Bool :=
  match o with
  | none => true
  | some n => n == 0

/-- A TestLink project record as consumed by the code (`id`, `name`,
    `prefix`; the prefix field is named `prfx` here). -/
structure Project where
  id : Nat
  name : String
  prfx : String
deriving DecidableEq, Repr

/-- A first-level test suite record (`id`, `name`). -/
structure Suite where
  id : Nat
  name : String
deriving DecidableEq, Repr

/-- A test plan record (`id`, `name`). -/
structure Plan where
  id : Nat
  name : String
deriving DecidableEq, Repr

/-- A test case record with the fields the code reads: internal `id`,
    `name`, `summary`, `tc_external_id` and optional `full_tc_external_id`. -/
structure TCase where
  id : Nat
  name : String
  summary : String
  tc_external_id : String
  full_tc_external_id : Option String
deriving DecidableEq, Repr

/-- A requirement specification record (`id`). -/
structure RSpec where
  id : Nat
deriving DecidableEq, Repr

/-- One search hit of the `search_tests` handler.  The source also stores
    ids, project/suite names and a truncated summary in each hit; those
    payload fields play no role in the matching logic and are elided. -/
structure SearchItem where
  typ : String
  name : String
  reason : String
deriving DecidableEq, Repr

/-- The opaque XML-RPC facade (`self.tl_client`): one field per remote
    method used by the code, each returning a value or raising.  Arguments
    that the code may pass as Python `None` are `Option`s. -/
structure TLClient where
  getProjects : Except String (List Project)
  getFirstLevelTestSuitesForTestProject : Nat → Except String (List Suite)
  getProjectTestPlans : Option Nat → Except String (List Plan)
  getTestCasesForTestSuite : Nat → Except String (List TCase)
  getTestCase : Option String → Except String (List TCase)
  createTestProject : String → String → Except String String
  createTestCase : String → Nat → Nat → String → String → Except String String
  createTestSuite : Nat → String → String → Except String String
  updateTestCase : Option String → List (String × Option String) → Except String String
  updateTestSuite : Nat → Nat → Option String → Option String → Except String String
  createTestPlan : String → String → String → Except String String
  deleteTestPlan : Nat → Except String String
  getTestCasesForTestPlan : Nat → Except String (List TCase)
  getBuildsForTestPlan : Nat → Except String String
  createBuild : Nat → String → String → Except String String
  addTestCaseToTestPlan : Nat → Nat → String → Nat → Except String String
  getLastExecutionResult : Option Nat → Option String → Except String String
  reportTCResult : Nat → Nat → String → String → String → Except String String
  getRequirementSpecifications : Option Nat → Except String (List RSpec)
  getRequirementsForRequirementSpecification : Nat → Option Nat → Except String (List String)
  getRequirement : Option String → Option Nat → Except String String

/-- Payload carried in an `ActionResult`'s `data` field. -/
inductive PData where
  | raw (s : String)
  | projects (ps : List Project)
  | suites (ss : List Suite)
  | plans (ps : List Plan)
  | tcases (cs : List TCase)
  | reqs (rs : List String)
  | search (terms : List String) (results : List SearchItem) (total : Nat)
deriving DecidableEq, Repr

/-- The uniform result envelope every handler returns. -/
structure ActionResult where
  success : Bool
  message : String
  action : Option String := none
  data : Option PData := none
deriving DecidableEq, Repr

/-- The model's tool-call arguments: the fixed parameter schema of the
    ToolRegistry, each value present or absent (Python `args.get`). -/
structure Args where
  name : Option String := none
  prfx : Option String := none
  test_case_external_id : Option String := none
  project_name : Option String := none
  suite_name : Option String := none
  summary : Option String := none
  title : Option String := none
  preconditions : Option String := none
  steps : Option String := none
  expected_results : Option String := none
  new_name : Option String := none
  details : Option String := none
  keywords : List String := []
  plan_name : Option String := none
  case_name : Option String := none
  build_name : Option String := none
  notes : Option String := none
  status : Option String := none
  req_doc_id : Option String := none
deriving DecidableEq, Repr

/-- Python `args["k"]`: raises `KeyError` when the key is absent. -/
def reqS (o : Option String) (k : String) : TL String :=
  match o with
  | some v => pure v
  | none => raiseTL ("KeyError: '" ++ k ++ "'")

/-- `_get_project_id_by_name`: NOT wrapped in try/except in the source, so
    a facade failure (or a `None` name with a nonempty project list)
    propagates to the caller. -/
def get_project_id_by_name (c : TLClient) (name : Option String) : TL (Option Nat) := do
  let ps ← callF "getProjects" [] c.getProjects
  match ps with
  | [] => pure none
  | _ => do
      let n ← pyLower name
      pure ((ps.find? fun p => lowerStr p.name == n).map (·.id))

/-- `_get_project_prefix`: also not wrapped in try/except. -/
def get_project_pfx (c : TLClient) (project_id : Nat) : TL String := do
  let ps ← callF "getProjects" [] c.getProjects
  pure (((ps.find? fun p => p.id == project_id).map (·.prfx)).getD "")

/-- Body of `_get_plan_id_by_name` (the part inside its `try`). -/
def plan_id_body (c : TLClient) (name : Option String) (project_id : Option Nat) :
    TL (Option Nat) := do
  let ps ← callF "getProjectTestPlans" [pyStr (project_id.map toString)] (c.getProjectTestPlans project_id)
  match ps with
  | [] => pure none
  | _ => do
      let n ← pyLower name
      pure ((ps.find? fun p => lowerStr p.name == n).map (·.id))

/-- `_get_plan_id_by_name`: the whole body is inside `try: ... except: pass`,
    so every failure becomes `None`. -/
def get_plan_id_by_name (c : TLClient) (name : Option String) (project_id : Option Nat) :
    Option Nat × List Ev :=
  swallow (plan_id_body c name project_id)

/-- Body of `_get_suite_id_by_name` (the part inside its `try`). -/
def suite_id_body (c : TLClient) (name : Option String) (project_id : Nat) :
    TL (Option Nat) := do
  let ss ← callF "getFirstLevelTestSuitesForTestProject" [toString project_id]
    (c.getFirstLevelTestSuitesForTestProject project_id)
  match ss with
  | [] => pure none
  | _ => do
      let n ← pyLower name
      pure ((ss.find? fun s => lowerStr s.name == n).map (·.id))

/-- `_get_suite_id_by_name`: totalized by its `try`/`except`. -/
def get_suite_id_by_name (c : TLClient) (name : Option String) (project_id : Nat) :
    Option Nat × List Ev :=
  swallow (suite_id_body c name project_id)

/-- Direct lookup branch of `_find_case_by_name`: `getTestCase` by external
    id inside `try`/`except`; a nonempty reply yields its first element. -/
def find_direct (c : TLClient) (name : String) : Option TCase × List Ev :=
  match c.getTestCase (some name) with
  | Except.error _ => (none, [Ev.remote "getTestCase" [name]])
  | Except.ok cs => (cs.head?, [Ev.remote "getTestCase" [name]])

/-- The case predicate of the scan: case-insensitive exact name equality,
    or the searched text occurring literally inside the case summary. -/
def case_hit (name : String) (cse : TCase) : Bool :=
  lowerStr cse.name == lowerStr name || strContains cse.summary name

/-- Scan loop over first-level suites, first match wins. -/
def scan_suites (c : TLClient) (name : String) : List Suite → TL (Option TCase)
  | [] => pure none
  | s :: rest => do
      let cs ← callF "getTestCasesForTestSuite" [toString s.id] (c.getTestCasesForTestSuite s.id)
      match cs.find? (case_hit name) with
      | some cse => pure (some cse)
      | none => scan_suites c name rest

/-- Body of the scan branch of `_find_case_by_name` (inside its `try`). -/
def find_scan_body (c : TLClient) (name : String) (project_id : Nat) :
    TL (Option TCase) := do
  let ss ← callF "getFirstLevelTestSuitesForTestProject" [toString project_id]
    (c.getFirstLevelTestSuitesForTestProject project_id)
  scan_suites c name ss

/-- The scan branch, totalized by its `try`/`except`. -/
def find_scan (c : TLClient) (name : String) (project_id : Nat) :
    Option TCase × List Ev :=
  swallow (find_scan_body c name project_id)

/-- `_find_case_by_name`: direct external-id lookup first when the name
    contains `-`, otherwise (or on a fruitless direct lookup) the scan. -/
def find_case_by_name (c : TLClient) (name : String) (project_id : Nat) :
    Option TCase × List Ev :=
  if strContains name "-" then
    match find_direct c name with
    | (some cse, t) => (some cse, t)
    | (none, t) =>
        match find_scan c name project_id with
        | (r, t2) => (r, t ++ t2)
  else find_scan c name project_id

/-- First case-insensitive name match in an (id, name) listing. -/
def matchName (entries : List (Nat × String)) (target : Option String) : Option Nat :=
  match target with
  | none => none
  | some t => (entries.find? fun e => lowerStr e.2 == lowerStr t).map (·.1)

/-- The in-handler resolution loop of `_create_test_case`: first
    case-insensitive name match, falling back to `fb` when the target is
    absent, unmatched, or the matched id is Python-falsy (0). -/
def pickId (entries : List (Nat × String)) (target : Option String) (fb : Nat) : Nat :=
  match matchName entries target with
  | none => fb
  | some n => if n == 0 then fb else n

/-- The project id `_create_test_case` ends up using, given the project
    listing: `None` when there are no projects. -/
def chosenProject (ps : List Project) (project_name : Option String) : Option Nat :=
  match ps with
  | [] => none
  | p0 :: _ => some (pickId (ps.map fun p => (p.id, p.name)) project_name p0.id)

/-- The `status_map` dict of `_report_test_result`. -/
def statusMap : List (String × String) :=
  [("pass", "p"), ("fail", "f"), ("blocked", "b"), ("p", "p"), ("f", "f"), ("b", "b")]

/-- `status_map.get(s)`. -/
def statusMapGet (s : String) : Option String :=
  (statusMap.find? fun e => e.1 == s).map (·.2)

/-- The auto-generated prefix of `_create_project`:
    initials of the first three words, upper-cased. -/
def autoPfx (name : String) : String :=
  String.join (((pyWords name).take 3).map upperFirst)

/-- Body of `_create_project` (inside its `try`). -/
def create_project_body (c : TLClient) (name : String) (pfx : String) : TL ActionResult := do
  let r ← callF "createTestProject" [name, pfx] (c.createTestProject name pfx)
  pure { action := some "create_project", success := true, data := some (.raw r),
         message := "Proyecto '" ++ name ++ "' creado exitosamente con prefijo '" ++ pfx ++ "'" }

/-- `_create_project`: computes the prefix (auto-generated when absent or
    empty), then creates, converting any exception into a failure result. -/
def create_project_h (c : TLClient) (name : String) (prfx : Option String) :
    ActionResult × List Ev :=
  let pfx := pyOrS prfx (autoPfx name)
  runH (create_project_body c name pfx)
    (fun e => { success := false, message := "Error creando proyecto: " ++ e })

/-- `_list_projects`. -/
def list_projects_h (c : TLClient) : ActionResult × List Ev :=
  runH (do
      let ps ← callF "getProjects" [] c.getProjects
      pure { action := some "list_projects", success := true, data := some (.projects ps),
             message := "Se encontraron " ++ toString ps.length ++ " proyectos" })
    (fun e => { action := some "list_projects", success := false,
                message := "Error listando proyectos: " ++ e })

/-- `_create_test_case`: silent fallback to the first project / first
    first-level suite when the given names are absent or unmatched. -/
def create_test_case_h (c : TLClient) (name : String)
    (project_name suite_name summary : Option String) : ActionResult × List Ev :=
  runH (do
      let ps ← callF "getProjects" [] c.getProjects
      match ps with
      | [] => pure { success := false, message := "No hay proyectos disponibles." }
      | p0 :: _ => do
          let pid := pickId (ps.map fun p => (p.id, p.name)) project_name p0.id
          let ss ← callF "getFirstLevelTestSuitesForTestProject" [toString pid]
            (c.getFirstLevelTestSuitesForTestProject pid)
          match ss with
          | [] => pure { success := false,
                         message := "El proyecto no tiene suites. Crea una primero." }
          | s0 :: _ => do
              let sid := pickId (ss.map fun s => (s.id, s.name)) suite_name s0.id
              let smry := pyOrS summary ("Caso de prueba: " ++ name)
              let r ← callF "createTestCase" [name, toString sid, toString pid, "admin", smry]
                (c.createTestCase name sid pid "admin" smry)
              pure { action := some "create_test_case", success := true, data := some (.raw r),
                     message := "Caso '" ++ name ++ "' creado exitosamente en proyecto " ++
                       toString pid })
    (fun e => { success := false, message := "Error creando caso: " ++ e })

/-- `_read_test_case`. -/
def read_test_case_h (c : TLClient) (tcid : Option String) (_pn : Option String) :
    ActionResult × List Ev :=
  runH (do
      let cs ← callF "getTestCase" [pyStr tcid] (c.getTestCase tcid)
      match cs with
      | [] => pure { success := false, message := "Caso de prueba no encontrado" }
      | _ => pure { success := true, data := some (.tcases cs), action := some "read_test_case",
                    message := "" })
    (fun e => { success := false, message := "Error leyendo caso: " ++ e })

/-- `_update_test_case`: forwards the optional update fields. -/
def update_test_case_h (c : TLClient) (tcid : Option String) (_pn : Option String)
    (a : Args) : ActionResult × List Ev :=
  runH (do
      let fields := [("title", a.title), ("summary", a.summary),
                     ("preconditions", a.preconditions), ("steps", a.steps),
                     ("expected_results", a.expected_results)]
      let r ← callF "updateTestCase"
        (pyStr tcid :: fields.map (fun f => f.1 ++ "=" ++ pyStr f.2))
        (c.updateTestCase tcid fields)
      pure { success := true, data := some (.raw r), action := some "update_test_case",
             message := "" })
    (fun e => { success := false, message := "Error actualizando caso: " ++ e })

/-- `_delete_test_case`: soft-deactivation via `updateTestCase(active=0)`. -/
def delete_test_case_h (c : TLClient) (tcid : Option String) (_pn : Option String) :
    ActionResult × List Ev :=
  runH (do
      let _ ← callF "updateTestCase" [pyStr tcid, "active=0"]
        (c.updateTestCase tcid [("active", some "0")])
      pure { success := true, message := "Caso " ++ pyStr tcid ++ " desactivado/eliminado",
             action := some "delete_test_case" })
    (fun e => { success := false, message := "Error eliminando caso: " ++ e })

/-- `_list_test_suites`. -/
def list_test_suites_h (c : TLClient) (project_name : Option String) :
    ActionResult × List Ev :=
  runH (do
      let pid ← get_project_id_by_name c project_name
      if optFalsy pid then pure { success := false, message := "Proyecto no encontrado" }
      else do
        let ss ← callF "getFirstLevelTestSuitesForTestProject" [pyStr (pid.map toString)]
          (c.getFirstLevelTestSuitesForTestProject (pid.getD 0))
        pure { success := true, data := some (.suites ss), action := some "list_test_suites",
               message := "" })
    (fun e => { success := false, message := "Error listando suites: " ++ e })

/-- `_list_test_cases_in_suite`. -/
def list_test_cases_in_suite_h (c : TLClient) (suite_name project_name : Option String) :
    ActionResult × List Ev :=
  runH (do
      let pid ← get_project_id_by_name c project_name
      if optFalsy pid then pure { success := false, message := "Proyecto no encontrado" }
      else do
        let sid ← liftTot (get_suite_id_by_name c suite_name (pid.getD 0))
        if optFalsy sid then pure { success := false, message := "Suite no encontrada" }
        else do
          let cs ← callF "getTestCasesForTestSuite" [pyStr (sid.map toString)]
            (c.getTestCasesForTestSuite (sid.getD 0))
          pure { success := true, data := some (.tcases cs),
                 action := some "list_test_cases_in_suite", message := "" })
    (fun e => { success := false, message := "Error listando casos de suite: " ++ e })

/-- `_create_test_suite`: fallback to the first project when the name is
    absent or unmatched. -/
def create_test_suite_h (c : TLClient) (name : String) (project_name : Option String) :
    ActionResult × List Ev :=
  runH (do
      let ps ← callF "getProjects" [] c.getProjects
      match ps with
      | [] => pure { success := false, message := "No hay proyectos disponibles" }
      | p0 :: _ => do
          let pid := (matchName (ps.map fun p => (p.id, p.name)) project_name).getD p0.id
          let r ← callF "createTestSuite" [toString pid, name]
            (c.createTestSuite pid name ("Suite: " ++ name))
          pure { action := some "create_test_suite", success := true, data := some (.raw r),
                 message := "Suite '" ++ name ++ "' creada exitosamente" })
    (fun e => { success := false, message := "Error creando suite: " ++ e })

/-- `_update_test_suite`. -/
def update_test_suite_h (c : TLClient) (suite_name project_name : Option String)
    (a : Args) : ActionResult × List Ev :=
  runH (do
      let pid ← get_project_id_by_name c project_name
      if optFalsy pid then pure { success := false, message := "Proyecto no encontrado" }
      else do
        let sid ← liftTot (get_suite_id_by_name c suite_name (pid.getD 0))
        if optFalsy sid then pure { success := false, message := "Suite no encontrada" }
        else do
          let new_name := match a.new_name with
            | some v => some v
            | none => suite_name
          let _ ← callF "updateTestSuite"
            [pyStr (sid.map toString), pyStr (pid.map toString), pyStr new_name, pyStr a.details]
            (c.updateTestSuite (sid.getD 0) (pid.getD 0) new_name a.details)
          pure { success := true, message := "Suite actualizada",
                 action := some "update_test_suite" })
    (fun e => { success := false, message := "Error actualizando suite: " ++ e })

/-- `_list_test_plans`. -/
def list_test_plans_h (c : TLClient) (project_name : Option String) :
    ActionResult × List Ev :=
  runH (do
      let pid ← get_project_id_by_name c project_name
      if optFalsy pid then pure { success := false, message := "Proyecto no encontrado" }
      else do
        let ps ← callF "getProjectTestPlans" [pyStr (pid.map toString)]
          (c.getProjectTestPlans pid)
        pure { success := true, data := some (.plans ps), action := some "list_test_plans",
               message := "" })
    (fun e => { success := false, message := "Error listando planes: " ++ e })

/-- `_create_test_plan`: `createTestPlan` takes the project name directly. -/
def create_test_plan_h (c : TLClient) (name project_name : String) (notes : String) :
    ActionResult × List Ev :=
  runH (do
      let r ← callF "createTestPlan" [name, project_name, notes]
        (c.createTestPlan name project_name notes)
      pure { action := some "create_test_plan", success := true, data := some (.raw r),
             message := "Plan de pruebas '" ++ name ++ "' creado en proyecto '" ++
               project_name ++ "'" })
    (fun e => { success := false, message := "Error creando plan: " ++ e })

/-- `_delete_test_plan`: the raw `deleteTestPlan` call has its own inner
    `try`, whose failure yields a fixed restriction message. -/
def delete_test_plan_h (c : TLClient) (plan_name project_name : Option String) :
    ActionResult × List Ev :=
  runH (do
      let pid ← get_project_id_by_name c project_name
      if optFalsy pid then pure { success := false, message := "Proyecto no encontrado" }
      else do
        let plid ← liftTot (get_plan_id_by_name c plan_name pid)
        if optFalsy plid then pure { success := false, message := "Plan no encontrado" }
        else
          catchTL (do
              let _ ← callF "deleteTestPlan" [pyStr (plid.map toString)]
                (c.deleteTestPlan (plid.getD 0))
              pure { success := true, message := "Plan eliminado",
                     action := some "delete_test_plan" })
            (fun _ => pure
              { success := false,
                message := "No se pudo eliminar el plan (posible restricción de API)" }))
    (fun e => { success := false, message := "Error eliminando plan: " ++ e })

/-- `_get_test_cases_for_test_plan`: note the project id is NOT checked. -/
def get_test_cases_for_test_plan_h (c : TLClient) (plan_name project_name : Option String) :
    ActionResult × List Ev :=
  runH (do
      let pid ← get_project_id_by_name c project_name
      let plid ← liftTot (get_plan_id_by_name c plan_name pid)
      if optFalsy plid then pure { success := false, message := "Plan no encontrado" }
      else do
        let cs ← callF "getTestCasesForTestPlan" [pyStr (plid.map toString)]
          (c.getTestCasesForTestPlan (plid.getD 0))
        pure { success := true, data := some (.tcases cs),
               action := some "get_test_cases_for_test_plan", message := "" })
    (fun e => { success := false, message := "Error obteniendo casos del plan: " ++ e })

/-- `_list_builds`: the project id is NOT checked either. -/
def list_builds_h (c : TLClient) (plan_name project_name : Option String) :
    ActionResult × List Ev :=
  runH (do
      let pid ← get_project_id_by_name c project_name
      let plid ← liftTot (get_plan_id_by_name c plan_name pid)
      if optFalsy plid then pure { success := false, message := "Plan no encontrado" }
      else do
        let bs ← callF "getBuildsForTestPlan" [pyStr (plid.map toString)]
          (c.getBuildsForTestPlan (plid.getD 0))
        pure { success := true, data := some (.raw bs), action := some "list_builds",
               message := "" })
    (fun e => { success := false, message := "Error listando builds: " ++ e })

/-- `_create_build`. -/
def create_build_h (c : TLClient) (name plan_name project_name : String) (notes : String) :
    ActionResult × List Ev :=
  runH (do
      let pid ← get_project_id_by_name c (some project_name)
      if optFalsy pid then
        pure { success := false, message := "Proyecto '" ++ project_name ++ "' no encontrado" }
      else do
        let plid ← liftTot (get_plan_id_by_name c (some plan_name) pid)
        if optFalsy plid then
          pure { success := false, message := "Plan '" ++ plan_name ++
                   "' no encontrado en proyecto '" ++ project_name ++ "'" }
        else do
          let r ← callF "createBuild" [pyStr (plid.map toString), name, notes]
            (c.createBuild (plid.getD 0) name notes)
          pure { action := some "create_build", success := true, data := some (.raw r),
                 message := "Build '" ++ name ++ "' creado en plan '" ++ plan_name ++ "'" })
    (fun e => { success := false, message := "Error creando build: " ++ e })

/-- `_close_build`: intentionally unsupported — a fixed failure with no
    facade interaction at all (the source body is a single return). -/
def close_build_h (_c : TLClient) (_bn _pn _prn : Option String) :
    ActionResult × List Ev :=
  ({ success := false,
     message := "Función close_build no soportada completamente por la versión actual de la API" },
   [])

/-- `_add_test_case_to_plan`. -/
def add_test_case_to_plan_h (c : TLClient) (case_name plan_name project_name : String) :
    ActionResult × List Ev :=
  runH (do
      let pid ← get_project_id_by_name c (some project_name)
      if optFalsy pid then pure { success := false, message := "Proyecto no encontrado" }
      else do
        let plid ← liftTot (get_plan_id_by_name c (some plan_name) pid)
        if optFalsy plid then pure { success := false, message := "Plan no encontrado" }
        else do
          let ci ← liftTot (find_case_by_name c case_name (pid.getD 0))
          match ci with
          | none => pure { success := false,
                           message := "Caso '" ++ case_name ++ "' no encontrado" }
          | some cse => do
              let fullExt ← match pyTruthy cse.full_tc_external_id with
                | some s => pure s
                | none => do
                    let pfx ← get_project_pfx c (pid.getD 0)
                    pure (pfx ++ "-" ++ cse.tc_external_id)
              let r ← callF "addTestCaseToTestPlan"
                [pyStr (pid.map toString), pyStr (plid.map toString), fullExt, "1"]
                (c.addTestCaseToTestPlan (pid.getD 0) (plid.getD 0) fullExt 1)
              pure { action := some "add_test_case_to_plan", success := true,
                     data := some (.raw r),
                     message := "Caso '" ++ case_name ++ "' (" ++ fullExt ++
                       ") añadido al plan '" ++ plan_name ++ "'" })
    (fun e => { success := false, message := "Error añadiendo caso al plan: " ++ e })

/-- `_read_test_execution`: neither the project nor the plan id is checked. -/
def read_test_execution_h (c : TLClient) (tcid plan_name project_name : Option String) :
    ActionResult × List Ev :=
  runH (do
      let pid ← get_project_id_by_name c project_name
      let plid ← liftTot (get_plan_id_by_name c plan_name pid)
      let r ← callF "getLastExecutionResult" [pyStr (plid.map toString), pyStr tcid]
        (c.getLastExecutionResult plid tcid)
      pure { success := true, data := some (.raw r), action := some "read_test_execution",
             message := "" })
    (fun e => { success := false, message := "Error leyendo ejecución: " ++ e })

/-- `_report_test_result`: validates the status word against `status_map`
    BEFORE any resolution or remote call. -/
def report_test_result_h (c : TLClient) (case_name status plan_name build_name
    project_name : String) (notes : String) : ActionResult × List Ev :=
  runH (do
      match statusMapGet (lowerStr status) with
      | none => pure { success := false, message := "Estado inválido. Usar: pass, fail, blocked" }
      | some status_code => do
          let pid ← get_project_id_by_name c (some project_name)
          if optFalsy pid then pure { success := false, message := "Proyecto no encontrado" }
          else do
            let plid ← liftTot (get_plan_id_by_name c (some plan_name) pid)
            if optFalsy plid then pure { success := false, message := "Plan no encontrado" }
            else do
              let ci ← liftTot (find_case_by_name c case_name (pid.getD 0))
              match ci with
              | none => pure { success := false,
                               message := "Caso '" ++ case_name ++ "' no encontrado" }
              | some cse => do
                  let r ← callF "reportTCResult"
                    [toString cse.id, pyStr (plid.map toString), build_name, status_code, notes]
                    (c.reportTCResult cse.id (plid.getD 0) build_name status_code notes)
                  pure { action := some "report_test_result", success := true,
                         data := some (.raw r),
                         message := "Resultado '" ++ status ++ "' reportado para caso '" ++
                           case_name ++ "' en build '" ++ build_name ++ "'" })
    (fun e => { success := false, message := "Error reportando resultado: " ++ e })

/-- Requirement collection loop of `_list_requirements`. -/
def collect_reqs (c : TLClient) (pid : Option Nat) : List RSpec → TL (List String)
  | [] => pure []
  | s :: rest => do
      let rs ← callF "getRequirementsForRequirementSpecification"
        [toString s.id, pyStr (pid.map toString)]
        (c.getRequirementsForRequirementSpecification s.id pid)
      let more ← collect_reqs c pid rest
      pure (rs ++ more)

/-- `_list_requirements`: the project id is not checked. -/
def list_requirements_h (c : TLClient) (project_name : Option String) :
    ActionResult × List Ev :=
  runH (do
      let pid ← get_project_id_by_name c project_name
      let specs ← callF "getRequirementSpecifications" [pyStr (pid.map toString)]
        (c.getRequirementSpecifications pid)
      let reqs ← collect_reqs c pid specs
      pure { success := true, data := some (.reqs reqs), action := some "list_requirements",
             message := "" })
    (fun e => { success := false, message := "Error listando requisitos: " ++ e })

/-- `_get_requirement`. -/
def get_requirement_h (c : TLClient) (req_doc_id project_name : Option String) :
    ActionResult × List Ev :=
  runH (do
      let pid ← get_project_id_by_name c project_name
      let r ← callF "getRequirement" [pyStr req_doc_id, pyStr (pid.map toString)]
        (c.getRequirement req_doc_id pid)
      pure { success := true, data := some (.raw r), action := some "get_requirement",
             message := "" })
    (fun e => { success := false, message := "Error obteniendo requisito: " ++ e })

/-- The special-cased synonyms for the search term `auth`. -/
def auth_words : List String :=
  ["autenticación", "authentication", "autorization", "autorización"]

/-- Suite matching of `_search_tests`: substring hit, word-initial hit, or
    the `auth` synonym set. -/
def suite_matches (terms : List String) (suiteName : String) : Bool :=
  let sl := lowerStr suiteName
  terms.any fun term =>
    let t := lowerStr term
    strContains sl t ||
    ((pyWords sl).any fun w => charsHasPre t.data w.data) ||
    (t == "auth" && auth_words.any fun aw => strContains sl aw)

/-- Case matching of `_search_tests`: any term inside name or summary. -/
def case_search_hit (terms : List String) (cse : TCase) : Bool :=
  terms.any fun term =>
    strContains (lowerStr cse.name) (lowerStr term) || strContains (lowerStr cse.summary) (lowerStr term)

/-- Inner per-suite case enumeration of `_search_tests` (own `try`). -/
def search_suite_cases (c : TLClient) (terms : List String) (s : Suite) :
    List SearchItem × List Ev :=
  match c.getTestCasesForTestSuite s.id with
  | Except.error _ => ([], [Ev.remote "getTestCasesForTestSuite" [toString s.id]])
  | Except.ok cs =>
      ((cs.filter (case_search_hit terms)).map
        (fun cse => ⟨"test_case", cse.name, "Contenido del caso coincide"⟩),
       [Ev.remote "getTestCasesForTestSuite" [toString s.id]])

/-- Suite loop of `_search_tests`. -/
def search_suites (c : TLClient) (terms : List String) : List Suite → List SearchItem × List Ev
  | [] => ([], [])
  | s :: rest =>
      let here :=
        if suite_matches terms s.name then
          match search_suite_cases c terms s with
          | (ci, ev2) =>
              ((⟨"test_suite", s.name, "Nombre de suite coincide"⟩ : SearchItem) :: ci, ev2)
        else ([], [])
      match search_suites c terms rest with
      | (more, ev3) => (here.1 ++ more, here.2 ++ ev3)

/-- Per-project search of `_search_tests` (the suites block has its own
    `try` whose failure is swallowed per project). -/
def search_project (c : TLClient) (terms : List String) (p : Project) :
    List SearchItem × List Ev :=
  let nameHit : List SearchItem :=
    if terms.any (fun t => strContains (lowerStr p.name) (lowerStr t)) then
      [⟨"project", p.name, "Nombre del proyecto coincide"⟩] else []
  let pfxHit : List SearchItem :=
    if terms.any (fun t => strContains (lowerStr p.prfx) (lowerStr t)) then
      [⟨"project", p.name, "Prefijo del proyecto coincide"⟩] else []
  match c.getFirstLevelTestSuitesForTestProject p.id with
  | Except.error _ =>
      (nameHit ++ pfxHit, [Ev.remote "getFirstLevelTestSuitesForTestProject" [toString p.id]])
  | Except.ok ss =>
      match search_suites c terms ss with
      | (r, e2) =>
          (nameHit ++ pfxHit ++ r,
           Ev.remote "getFirstLevelTestSuitesForTestProject" [toString p.id] :: e2)

/-- Project loop of `_search_tests`. -/
def search_all (c : TLClient) (terms : List String) : List Project → List SearchItem × List Ev
  | [] => ([], [])
  | p :: rest =>
      match search_project c terms p with
      | (r1, e1) =>
          match search_all c terms rest with
          | (r2, e2) => (r1 ++ r2, e1 ++ e2)

/-- `_search_tests`. -/
def search_tests_h (c : TLClient) (terms : List String) : ActionResult × List Ev :=
  runH (do
      if terms.isEmpty then
        pure { success := false, message := "No se proporcionaron términos de búsqueda" }
      else do
        let ps ← callF "getProjects" [] c.getProjects
        let results ← liftTot (search_all c terms ps)
        match results with
        | [] => pure { action := some "search_tests", success := true,
                       data := some (.search terms [] 0),
                       message := "No se encontraron elementos relacionados con: " ++
                         String.intercalate ", " terms }
        | _ => pure { action := some "search_tests", success := true,
                      data := some (.search terms results results.length),
                      message := "Se encontraron " ++ toString results.length ++
                        " elementos relacionados con: " ++ String.intercalate ", " terms })
    (fun e => { action := some "search_tests", success := false,
                message := "Error en la búsqueda: " ++ e })

/-- Run a handler: records the dispatch event, then the handler's result
    (handlers are already exception-total). -/
def dispatchH (nm : String) (p : ActionResult × List Ev) : TL ActionResult :=
  (Except.ok p.1, Ev.handler nm :: p.2)

/-- The tool names of the `_execute_tool` if/elif chain, in source order. -/
def knownTools : List String :=
  ["create_project", "list_projects", "read_test_case", "create_test_case",
   "update_test_case", "delete_test_case", "list_test_suites", "list_test_cases_in_suite",
   "create_test_suite", "update_test_suite", "search_tests", "list_test_plans",
   "create_test_plan", "delete_test_plan", "get_test_cases_for_test_plan",
   "add_test_case_to_test_plan", "list_builds", "create_build", "close_build",
   "read_test_execution", "create_test_execution", "list_requirements", "get_requirement"]

/-- `_execute_tool`: the dispatcher.  Required arguments are read with
    `args["k"]` (a missing key raises out of the dispatcher, to be caught
    by `process_prompt`); optional ones with `args.get`.  Unknown names
    fall through to the fixed validation failure without any dispatch. -/
def execute_tool (c : TLClient) (name : String) (a : Args) : TL ActionResult :=
  if name = "create_project" then do
    let n ← reqS a.name "name"
    dispatchH "create_project" (create_project_h c n a.prfx)
  else if name = "list_projects" then
    dispatchH "list_projects" (list_projects_h c)
  else if name = "read_test_case" then
    dispatchH "read_test_case" (read_test_case_h c a.test_case_external_id a.project_name)
  else if name = "create_test_case" then do
    let n ← reqS a.name "name"
    dispatchH "create_test_case" (create_test_case_h c n a.project_name a.suite_name a.summary)
  else if name = "update_test_case" then
    dispatchH "update_test_case" (update_test_case_h c a.test_case_external_id a.project_name a)
  else if name = "delete_test_case" then
    dispatchH "delete_test_case" (delete_test_case_h c a.test_case_external_id a.project_name)
  else if name = "list_test_suites" then
    dispatchH "list_test_suites" (list_test_suites_h c a.project_name)
  else if name = "list_test_cases_in_suite" then
    dispatchH "list_test_cases_in_suite" (list_test_cases_in_suite_h c a.suite_name a.project_name)
  else if name = "create_test_suite" then do
    let n ← reqS a.name "name"
    dispatchH "create_test_suite" (create_test_suite_h c n a.project_name)
  else if name = "update_test_suite" then
    dispatchH "update_test_suite" (update_test_suite_h c a.suite_name a.project_name a)
  else if name = "search_tests" then
    dispatchH "search_tests" (search_tests_h c a.keywords)
  else if name = "list_test_plans" then
    dispatchH "list_test_plans" (list_test_plans_h c a.project_name)
  else if name = "create_test_plan" then do
    let n ← reqS a.name "name"
    let pn ← reqS a.project_name "project_name"
    dispatchH "create_test_plan" (create_test_plan_h c n pn (a.notes.getD ""))
  else if name = "delete_test_plan" then
    dispatchH "delete_test_plan" (delete_test_plan_h c a.plan_name a.project_name)
  else if name = "get_test_cases_for_test_plan" then
    dispatchH "get_test_cases_for_test_plan"
      (get_test_cases_for_test_plan_h c a.plan_name a.project_name)
  else if name = "add_test_case_to_test_plan" then do
    let cn ← reqS a.case_name "case_name"
    let pln ← reqS a.plan_name "plan_name"
    let prn ← reqS a.project_name "project_name"
    dispatchH "add_test_case_to_test_plan" (add_test_case_to_plan_h c cn pln prn)
  else if name = "list_builds" then
    dispatchH "list_builds" (list_builds_h c a.plan_name a.project_name)
  else if name = "create_build" then do
    let n ← reqS a.name "name"
    let pln ← reqS a.plan_name "plan_name"
    let prn ← reqS a.project_name "project_name"
    dispatchH "create_build" (create_build_h c n pln prn (a.notes.getD ""))
  else if name = "close_build" then
    dispatchH "close_build" (close_build_h c a.build_name a.plan_name a.project_name)
  else if name = "read_test_execution" then
    dispatchH "read_test_execution"
      (read_test_execution_h c a.test_case_external_id a.plan_name a.project_name)
  else if name = "create_test_execution" then do
    let cn ← reqS a.case_name "case_name"
    let st ← reqS a.status "status"
    let pln ← reqS a.plan_name "plan_name"
    let bn ← reqS a.build_name "build_name"
    let prn ← reqS a.project_name "project_name"
    dispatchH "create_test_execution" (report_test_result_h c cn st pln bn prn (a.notes.getD ""))
  else if name = "list_requirements" then
    dispatchH "list_requirements" (list_requirements_h c a.project_name)
  else if name = "get_requirement" then
    dispatchH "get_requirement" (get_requirement_h c a.req_doc_id a.project_name)
  else
    pure { success := false, message := "Herramienta desconocida: " ++ name }

/-- One project entry of the RAG context: the base {id, name, prefix}
    triple, with suites/plans attached on deep retrieval. -/
structure RagProject where
  id : Nat
  name : String
  prfx : String
  suites : Option (List Suite) := none
  plans : Option (List Plan) := none
deriving DecidableEq, Repr

/-- The RAG context: the project snapshot handed to the model. -/
structure RAGContext where
  projects : List RagProject
deriving DecidableEq, Repr

/-- Project loop of `_get_rag_context`.  Only the plans fetch sits in an
    inner `try`; a failing suites fetch raises to the OUTER handler, so the
    loop aborts and the current and remaining projects are dropped. -/
def rag_projects (c : TLClient) (prompt : String) : List Project → List RagProject × List Ev
  | [] => ([], [])
  | p :: rest =>
      let base : RagProject := { id := p.id, name := p.name, prfx := p.prfx }
      if strContains (lowerStr prompt) (lowerStr p.name) then
        match c.getFirstLevelTestSuitesForTestProject p.id with
        | Except.error _ =>
            ([], [Ev.remote "getFirstLevelTestSuitesForTestProject" [toString p.id]])
        | Except.ok ss =>
            let withSuites := if ss.isEmpty then base else { base with suites := some ss }
            let withPlans :=
              match c.getProjectTestPlans (some p.id) with
              | Except.error _ => withSuites
              | Except.ok pls =>
                  if pls.isEmpty then withSuites else { withSuites with plans := some pls }
            (withPlans :: (rag_projects c prompt rest).1,
             Ev.remote "getFirstLevelTestSuitesForTestProject" [toString p.id] ::
             Ev.remote "getProjectTestPlans" [toString p.id] :: (rag_projects c prompt rest).2)
      else
        (base :: (rag_projects c prompt rest).1, (rag_projects c prompt rest).2)

/-- `_get_rag_context`: builds the context, swallowing any exception at the
    outer level and returning whatever was accumulated (the empty snapshot
    when `getProjects` itself fails). -/
def get_rag_context (c : TLClient) (prompt : String) : RAGContext × List Ev :=
  match c.getProjects with
  | Except.error _ => (⟨[]⟩, [Ev.remote "getProjects" []])
  | Except.ok ps =>
      match rag_projects c prompt ps with
      | (l, evs) => (⟨l⟩, Ev.remote "getProjects" [] :: evs)

/-- The language model's single-turn reply: a structured tool call or
    free-form text.  The oracle for one request either replies or raises
    (network failure, malformed output). -/
inductive ModelReply where
  | toolCall (name : String) (args : Args)
  | text (s : String)
deriving DecidableEq, Repr

/-- Body of `process_prompt` (inside its `try`): RAG context, the single
    model call, then either the tool dispatch or a chat reply. -/
def process_prompt_body (c : TLClient) (oracle : Except String ModelReply) (prompt : String) :
    TL ActionResult := do
  let _ctx ← liftTot (get_rag_context c prompt)
  let reply ← ((oracle, [Ev.modelCall]) : TL ModelReply)
  match reply with
  | ModelReply.toolCall name args => execute_tool c name args
  | ModelReply.text s => pure { success := true, action := some "chat", message := s }

/-- `process_prompt`: when no model credential is configured, a fixed
    unavailable result without any call; otherwise the body, with every
    exception converted to a `success:false` envelope. -/
def process_prompt (hasModel : Bool) (c : TLClient) (oracle : Except String ModelReply)
    (prompt : String) : ActionResult × List Ev :=
  if hasModel then
    runH (process_prompt_body c oracle prompt)
      (fun e => { success := false, message := "Error del Agente: " ++ e })
  else
    ({ success := false,
       message := "Modo Agente no disponible. Configura GOOGLE_API_KEY y asegúrate de tener 'google-generativeai' instalado." },
     [])

/-- The demo keyword router of src/mcp-api/demo_api.py (its fixed if/elif
    chain over the lower-cased prompt), returning the `action_taken` tag. -/
def demoRoute (prompt : String) : String :=
  let pl := lowerStr prompt
  if strContains pl "listar proyectos" || strContains pl "list projects" then "list_projects"
  else if strContains pl "casos" || strContains pl "pruebas" || strContains pl "test" then
    "list_test_cases"
  else if strContains pl "crear proyecto" then "create_project"
  else "help"

/-- Modelled from the spec: the action tags of the full HeuristicRouter of
    spec §4.1, which is not present under src/ (src/mcp-api/demo_api.py
    only contains a reduced three-rule demo router with no search rule). -/
inductive HAction where
  | search_tests
  | create_project
  | list_projects
  | create_test_case
  | list_test_cases
  | update_test_case
  | delete_test_case
  | unknown
deriving DecidableEq, Repr

/-- Modelled from the spec: one ordered rule of the HeuristicRouter — a
    keyword set and the action it classifies to. -/
structure HRule where
  keywords : List String
  act : HAction
deriving DecidableEq, Repr

/-- Modelled from the spec: the search/question rule set (interrogative and
    search-related keywords in the two supported languages). -/
def search_rule : HRule :=
  ⟨["buscar", "busca", "qué", "cuál", "existen", "dónde", "search", "encontrar"],
   HAction.search_tests⟩

/-- Modelled from the spec: the ordered rule list of the HeuristicRouter —
    the search/question rule set is evaluated before the narrower
    create/list/update/delete rules; missing from src/. -/
def heuristic_rules : List HRule :=
  [search_rule,
   ⟨["crear proyecto", "nuevo proyecto"], HAction.create_project⟩,
   ⟨["listar proyectos", "list projects"], HAction.list_projects⟩,
   ⟨["crear caso", "nuevo caso"], HAction.create_test_case⟩,
   ⟨["casos", "pruebas", "test"], HAction.list_test_cases⟩,
   ⟨["actualizar caso"], HAction.update_test_case⟩,
   ⟨["eliminar caso", "borrar caso"], HAction.delete_test_case⟩]

/-- Modelled from the spec: `classify(prompt)` — ordered substring tests
    over the lower-cased prompt, first matching rule wins, `unknown` as the
    total default. -/
def hClassify (prompt : String) : HAction :=
  match heuristic_rules.find? (fun r => r.keywords.any fun k => strContains (lowerStr prompt) k) with
  | some r => r.act
  | none => HAction.unknown

/-- A facade oracle on which every remote call raises. -/
def clBoom : TLClient where
  getProjects := Except.error "boom"
  getFirstLevelTestSuitesForTestProject := fun _ => Except.error "boom"
  getProjectTestPlans := fun _ => Except.error "boom"
  getTestCasesForTestSuite := fun _ => Except.error "boom"
  getTestCase := fun _ => Except.error "boom"
  createTestProject := fun _ _ => Except.error "boom"
  createTestCase := fun _ _ _ _ _ => Except.error "boom"
  createTestSuite := fun _ _ _ => Except.error "boom"
  updateTestCase := fun _ _ => Except.error "boom"
  updateTestSuite := fun _ _ _ _ => Except.error "boom"
  createTestPlan := fun _ _ _ => Except.error "boom"
  deleteTestPlan := fun _ => Except.error "boom"
  getTestCasesForTestPlan := fun _ => Except.error "boom"
  getBuildsForTestPlan := fun _ => Except.error "boom"
  createBuild := fun _ _ _ => Except.error "boom"
  addTestCaseToTestPlan := fun _ _ _ _ => Except.error "boom"
  getLastExecutionResult := fun _ _ => Except.error "boom"
  reportTCResult := fun _ _ _ _ _ => Except.error "boom"
  getRequirementSpecifications := fun _ => Except.error "boom"
  getRequirementsForRequirementSpecification := fun _ _ => Except.error "boom"
  getRequirement := fun _ _ => Except.error "boom"

/-- The sample projects of the healthy test oracle. -/
def demoProjects : List Project :=
  [⟨1, "Alpha", "ALP"⟩, ⟨2, "Beta", "BET"⟩]

/-- The sample suites of the healthy test oracle (project 1 only). -/
def demoSuites : Nat → List Suite
  | 1 => [⟨10, "Auth"⟩, ⟨11, "Carts"⟩]
  | _ => []

/-- The sample cases of the healthy test oracle. -/
def demoCases : Nat → List TCase
  | 10 => [⟨100, "Login", "check login works", "1", some "ALP-1"⟩]
  | 11 => [⟨101, "Checkout", "pay flow", "2", none⟩]
  | _ => []

/-- A healthy facade oracle over a small fixed dataset. -/
def clDemo : TLClient where
  getProjects := Except.ok demoProjects
  getFirstLevelTestSuitesForTestProject := fun pid => Except.ok (demoSuites pid)
  getProjectTestPlans := fun _ => Except.ok [⟨20, "Sprint 1"⟩]
  getTestCasesForTestSuite := fun sid => Except.ok (demoCases sid)
  getTestCase := fun _ => Except.ok []
  createTestProject := fun _ _ => Except.ok "ok"
  createTestCase := fun _ _ _ _ _ => Except.ok "ok"
  createTestSuite := fun _ _ _ => Except.ok "ok"
  updateTestCase := fun _ _ => Except.ok "ok"
  updateTestSuite := fun _ _ _ _ => Except.ok "ok"
  createTestPlan := fun _ _ _ => Except.ok "ok"
  deleteTestPlan := fun _ => Except.ok "ok"
  getTestCasesForTestPlan := fun _ => Except.ok []
  getBuildsForTestPlan := fun _ => Except.ok "ok"
  createBuild := fun _ _ _ => Except.ok "ok"
  addTestCaseToTestPlan := fun _ _ _ _ => Except.ok "ok"
  getLastExecutionResult := fun _ _ => Except.ok "ok"
  reportTCResult := fun _ _ _ _ _ => Except.ok "ok"
  getRequirementSpecifications := fun _ => Except.ok []
  getRequirementsForRequirementSpecification := fun _ _ => Except.ok []
  getRequirement := fun _ _ => Except.ok "ok"

/-- The oracle of the C5 counterexample: two projects, and every suites
    fetch raises. -/
def clSuitesDown : TLClient :=
  { clDemo with
    getProjects := Except.ok demoProjects,
    getFirstLevelTestSuitesForTestProject := fun _ => Except.error "boom" }

/-- An oracle whose plans fetch raises but whose suites fetch works. -/
def clPlansDown : TLClient :=
  { clDemo with getProjectTestPlans := fun _ => Except.error "boom" }

/-- Claim C6: when no language-model credential is configured,
    `process_prompt` returns the fixed agent-unavailable failure and makes
    no network call at all — neither to the model nor to the facade (the
    event trace is empty). -/
theorem c6_no_model_fixed_result (c : TLClient) (oracle : Except String ModelReply)
    (prompt : String) :
    process_prompt false c oracle prompt =
      ({ success := false,
         message := "Modo Agente no disponible. Configura GOOGLE_API_KEY y asegúrate de tener 'google-generativeai' instalado." },
       []) := rfl

/-- Claim C3: for every tool name outside the dispatcher's fixed catalogue,
    `_execute_tool` returns the unknown-tool validation failure without
    raising, without dispatching any handler and without any remote call
    (empty event trace). -/
theorem c3_unknown_tool (c : TLClient) (name : String) (a : Args)
    (h : name ∉ knownTools) :
    execute_tool c name a =
      (Except.ok { success := false, message := "Herramienta desconocida: " ++ name }, []) := by
  have hne : ∀ s : String, s ∈ knownTools → name ≠ s := by
    intro s hs he
    exact h (he ▸ hs)
  unfold execute_tool
  rw [if_neg (hne _ (by decide)), if_neg (hne _ (by decide)), if_neg (hne _ (by decide)),
    if_neg (hne _ (by decide)), if_neg (hne _ (by decide)), if_neg (hne _ (by decide)),
    if_neg (hne _ (by decide)), if_neg (hne _ (by decide)), if_neg (hne _ (by decide)),
    if_neg (hne _ (by decide)), if_neg (hne _ (by decide)), if_neg (hne _ (by decide)),
    if_neg (hne _ (by decide)), if_neg (hne _ (by decide)), if_neg (hne _ (by decide)),
    if_neg (hne _ (by decide)), if_neg (hne _ (by decide)), if_neg (hne _ (by decide)),
    if_neg (hne _ (by decide)), if_neg (hne _ (by decide)), if_neg (hne _ (by decide)),
    if_neg (hne _ (by decide)), if_neg (hne _ (by decide))]
  rfl

/-- Witness for C3 at the concrete unknown tool name `delete_everything`. -/
theorem c3_unknown_tool_w :
    execute_tool clDemo "delete_everything" {} =
      (Except.ok { success := false,
                   message := "Herramienta desconocida: delete_everything" }, []) :=
  c3_unknown_tool clDemo "delete_everything" {} (by decide)

/-- Claim C7: the safety-restricted operations never reach the facade as a
    hard delete — `delete_project` is rejected by the dispatcher with
    `success:false` and no handler/facade activity, `close_build` always
    returns its fixed `success:false` result with no facade call, and
    `_delete_test_case`'s only facade interaction is the soft-deactivating
    `updateTestCase(active=0)` (never a hard-delete call). -/
theorem c7_safety_restricted (c : TLClient) (a : Args) (tcid pn : Option String) :
    execute_tool c "delete_project" a =
      (Except.ok { success := false, message := "Herramienta desconocida: delete_project" }, [])
    ∧ execute_tool c "close_build" a =
      (Except.ok
        { success := false,
          message := "Función close_build no soportada completamente por la versión actual de la API" },
       [Ev.handler "close_build"])
    ∧ (delete_test_case_h c tcid pn).2 =
      [Ev.remote "updateTestCase" [pyStr tcid, "active=0"]] := by
  refine ⟨rfl, rfl, ?_⟩
  cases h : c.updateTestCase tcid [("active", some "0")] with
  | ok v => simp [delete_test_case_h, callF, h, runH]
  | error e => simp [delete_test_case_h, callF, h, runH]

/-- Claim C1: exceptions never escape the agent pipeline — a raising body
    of `process_prompt` (network failure, malformed model output, or a
    `KeyError` escaping `_execute_tool`) is converted into a single
    `success:false` result with a message, and the same holds for a raising
    handler body (`_create_project` shown). -/
theorem c1_exceptions_converted :
    (∀ (c : TLClient) (o : Except String ModelReply) (p e : String) (t : List Ev),
       process_prompt_body c o p = (Except.error e, t) →
       process_prompt true c o p =
         ({ success := false, message := "Error del Agente: " ++ e }, t))
    ∧ (∀ (c : TLClient) (n : String) (prfx : Option String) (e : String) (t : List Ev),
       create_project_body c n (pyOrS prfx (autoPfx n)) = (Except.error e, t) →
       create_project_h c n prfx =
         ({ success := false, message := "Error creando proyecto: " ++ e }, t)) := by
  constructor
  · intro c o p e t h
    simp [process_prompt, runH, h]
  · intro c n prfx e t h
    simp [create_project_h, runH, h]

/-- Witness for C1: a concrete raising model oracle is converted into a
    single failure result (the trace shows the RAG call and the model call
    that preceded the fault). -/
theorem c1_exceptions_converted_w :
    process_prompt true clBoom (Except.error "net down") "hola" =
      ({ success := false, message := "Error del Agente: net down" },
       [Ev.remote "getProjects" [], Ev.modelCall]) :=
  c1_exceptions_converted.1 clBoom (Except.error "net down") "hola" "net down"
    [Ev.remote "getProjects" [], Ev.modelCall] rfl

/-- Claim C2: `_report_test_result` validates the status word against the
    fixed table before anything else — any status whose lower-casing is
    outside the table yields the fixed validation failure with an empty
    event trace (no resolution, no remote call); `PASS` maps to `p`, the
    long words map to their short codes, the short codes pass through, and
    `urgent` is rejected. -/
theorem c2_status_table (status : String) (h : statusMapGet (lowerStr status) = none) :
    (∀ (c : TLClient) (cn pln bn prn nts : String),
       report_test_result_h c cn status pln bn prn nts =
         ({ success := false, message := "Estado inválido. Usar: pass, fail, blocked" }, []))
    ∧ statusMapGet (lowerStr "PASS") = some "p"
    ∧ statusMapGet "pass" = some "p"
    ∧ statusMapGet "fail" = some "f"
    ∧ statusMapGet "blocked" = some "b"
    ∧ statusMapGet "p" = some "p"
    ∧ statusMapGet "f" = some "f"
    ∧ statusMapGet "b" = some "b"
    ∧ statusMapGet "urgent" = none := by
  refine ⟨?_, by decide, by decide, by decide, by decide, by decide, by decide, by decide,
    by decide⟩
  intro c cn pln bn prn nts
  simp [report_test_result_h, h, runH]

/-- Witness for C2 at the concrete invalid status `urgent`. -/
theorem c2_status_table_w :
    report_test_result_h clDemo "Login" "urgent" "Sprint 1" "B1" "Alpha" "" =
      ({ success := false, message := "Estado inválido. Usar: pass, fail, blocked" }, []) :=
  (c2_status_table "urgent" (by decide)).1 clDemo "Login" "Sprint 1" "B1" "Alpha" ""

/-- When every per-suite case fetch succeeds, the scan returns the first
    matching case of the suite-order concatenation of all case lists. -/
theorem scan_suites_ok (c : TLClient) (name : String) (f : Suite → List TCase) :
    ∀ ss : List Suite,
      (∀ s ∈ ss, c.getTestCasesForTestSuite s.id = Except.ok (f s)) →
      ∃ t, scan_suites c name ss =
        (Except.ok (((ss.map f).flatten).find? (case_hit name)), t) := by
  intro ss
  induction ss with
  | nil => exact fun _ => ⟨[], rfl⟩
  | cons s rest ih =>
      intro hall
      obtain ⟨t, ht⟩ := ih (fun s2 hs2 => hall s2 (List.mem_cons_of_mem _ hs2))
      have hs : c.getTestCasesForTestSuite s.id = Except.ok (f s) :=
        hall s (List.mem_cons_self _ _)
      cases h1 : (f s).find? (case_hit name) with
      | some cse =>
          refine ⟨[Ev.remote "getTestCasesForTestSuite" [toString s.id]], ?_⟩
          simp [scan_suites, callF, hs, h1, List.find?_append]
      | none =>
          refine ⟨Ev.remote "getTestCasesForTestSuite" [toString s.id] :: t, ?_⟩
          simp [scan_suites, callF, hs, h1, ht, List.find?_append]

/-- Claim C4: `_find_case_by_name` tries the direct external-id lookup
    first exactly when the name contains `-` (returning its first hit with
    no scan), falls back to the scan when the direct lookup yields nothing,
    skips straight to the scan when there is no separator, and the scan
    returns the first case — across first-level suites in listing order —
    whose name matches case-insensitively or whose summary literally
    contains the searched text. -/
theorem c4_case_resolution (c : TLClient) (name : String) (pid : Nat) :
    (strContains name "-" = true →
       (∀ cs, c.getTestCase (some name) = Except.ok cs → cs ≠ [] →
          find_case_by_name c name pid = (cs.head?, [Ev.remote "getTestCase" [name]]))
       ∧ ((find_direct c name).1 = none →
          find_case_by_name c name pid =
            ((find_scan c name pid).1, (find_direct c name).2 ++ (find_scan c name pid).2)))
    ∧ (strContains name "-" = false → find_case_by_name c name pid = find_scan c name pid)
    ∧ (∀ (ss : List Suite) (f : Suite → List TCase),
        c.getFirstLevelTestSuitesForTestProject pid = Except.ok ss →
        (∀ s ∈ ss, c.getTestCasesForTestSuite s.id = Except.ok (f s)) →
        (find_scan c name pid).1 = ((ss.map f).flatten).find? (case_hit name)) := by
  refine ⟨fun hsep => ⟨?_, ?_⟩, ?_, ?_⟩
  · intro cs hcs hne
    cases cs with
    | nil => exact absurd rfl hne
    | cons a as => simp [find_case_by_name, hsep, find_direct, hcs]
  · intro hnone
    rcases hfd : find_direct c name with ⟨r, t⟩
    rw [hfd] at hnone
    have hr : r = none := hnone
    subst hr
    rcases hfs : find_scan c name pid with ⟨r2, t2⟩
    simp [find_case_by_name, hsep, hfd, hfs]
  · intro hsep
    simp [find_case_by_name, hsep]
  · intro ss f hss hall
    obtain ⟨t, ht⟩ := scan_suites_ok c name f ss hall
    simp [find_scan, find_scan_body, callF, hss, ht, swallow]

/-- Witness for C4: a name without separator goes straight to the scan. -/
theorem c4_case_resolution_w :
    find_case_by_name clDemo "Login" 1 = find_scan clDemo "Login" 1 :=
  (c4_case_resolution clDemo "Login" 1).2.1 (by decide)

/-- Counterexample to C5 as stated: with two projects and a prompt
    mentioning the first, a failing suites fetch (a deep-retrieval step)
    leaves the RAG context with NO projects at all — the failing project is
    not "still included", and the other project's inclusion is also lost. -/
theorem c5_cex_suites_failure_drops_projects :
    clSuitesDown.getProjects = Except.ok demoProjects
    ∧ demoProjects.length = 2
    ∧ strContains (lowerStr "revisa Alpha") (lowerStr "Alpha") = true
    ∧ (get_rag_context clSuitesDown "revisa Alpha").1.projects = [] := by
  refine ⟨rfl, rfl, by decide, by decide⟩

/-- All projects survive context building whenever every suites fetch
    succeeds, whatever the plans fetches do. -/
theorem rag_projects_names (c : TLClient) (prompt : String)
    (h : ∀ pid, ∃ ss, c.getFirstLevelTestSuitesForTestProject pid = Except.ok ss) :
    ∀ ps : List Project,
      (rag_projects c prompt ps).1.map (fun rp => rp.name) = ps.map (fun p => p.name) := by
  intro ps
  induction ps with
  | nil => rfl
  | cons p rest ih =>
      obtain ⟨ss, hss⟩ := h p.id
      by_cases hm : strContains (lowerStr prompt) (lowerStr p.name) = true
      · cases hpl : c.getProjectTestPlans (some p.id) with
        | ok pls =>
            by_cases hse : ss.isEmpty <;> by_cases hpe : pls.isEmpty <;>
              simp [rag_projects, hm, hss, hpl, hse, hpe, ih]
        | error e => by_cases hse : ss.isEmpty <;> simp [rag_projects, hm, hss, hpl, hse, ih]
      · simp at hm
        simp [rag_projects, hm, ih]

/-- Amended C5: best-effort holds per project for the PLANS step only —
    if every suites fetch succeeds, every project appears in the context in
    order regardless of plans failures; but a failing SUITES fetch for a
    mentioned project aborts retrieval, dropping that project and all later
    ones, while projects processed earlier (e.g. any unmentioned project in
    front) are kept. -/
theorem c5_best_effort_amended (c : TLClient) (prompt : String) :
    (∀ ps, c.getProjects = Except.ok ps →
       (∀ pid, ∃ ss, c.getFirstLevelTestSuitesForTestProject pid = Except.ok ss) →
       (get_rag_context c prompt).1.projects.map (fun rp => rp.name) =
         ps.map (fun p => p.name))
    ∧ (∀ (p : Project) (rest : List Project) (e : String),
        strContains (lowerStr prompt) (lowerStr p.name) = true →
        c.getFirstLevelTestSuitesForTestProject p.id = Except.error e →
        (rag_projects c prompt (p :: rest)).1 = [])
    ∧ (∀ (q : Project) (l : List Project),
        strContains (lowerStr prompt) (lowerStr q.name) = false →
        (rag_projects c prompt (q :: l)).1 =
          { id := q.id, name := q.name, prfx := q.prfx } :: (rag_projects c prompt l).1) := by
  refine ⟨?_, ?_, ?_⟩
  · intro ps hps h
    simp [get_rag_context, hps, rag_projects_names c prompt h ps]
  · intro p rest e hm he
    simp [rag_projects, hm, he]
  · intro q l hm
    simp [rag_projects, hm]

/-- Witness for the amended C5: with every plans fetch failing, both
    sample projects still appear in the context. -/
theorem c5_best_effort_amended_w :
    (get_rag_context clPlansDown "revisa Alpha").1.projects.map (fun rp => rp.name) =
      demoProjects.map (fun p => p.name) :=
  (c5_best_effort_amended clPlansDown "revisa Alpha").1 demoProjects rfl
    (fun pid => ⟨demoSuites pid, rfl⟩)

/-- Counterexample to C9 as stated: `_get_project_id_by_name` has no
    try/except, so a raising facade propagates the exception to its caller
    instead of returning a not-found signal. -/
theorem c9_cex_project_lookup_raises :
    (get_project_id_by_name clBoom (some "Alpha")).1 = Except.error "boom" := rfl

/-- Amended C9: the plan, suite and case-scan lookups are total-but-fallible
    (any raising body is swallowed into `none`), but the project lookup
    propagates a facade failure to its caller (each calling handler's own
    try/except is what converts it). -/
theorem c9_resolvers_amended (c : TLClient) (name : Option String) (nm : String)
    (pid : Option Nat) (spid : Nat) (e : String) (t : List Ev) :
    (plan_id_body c name pid = (Except.error e, t) →
       get_plan_id_by_name c name pid = (none, t))
    ∧ (suite_id_body c name spid = (Except.error e, t) →
       get_suite_id_by_name c name spid = (none, t))
    ∧ (find_scan_body c nm spid = (Except.error e, t) →
       find_scan c nm spid = (none, t))
    ∧ (c.getProjects = Except.error e →
       (get_project_id_by_name c name).1 = Except.error e) := by
  refine ⟨?_, ?_, ?_, ?_⟩
  · intro h; simp [get_plan_id_by_name, swallow, h]
  · intro h; simp [get_suite_id_by_name, swallow, h]
  · intro h; simp [find_scan, swallow, h]
  · intro h; simp [get_project_id_by_name, callF, h]

/-- Witness for the amended C9: a raising plans fetch is swallowed into a
    not-found plan lookup. -/
theorem c9_resolvers_amended_w :
    get_plan_id_by_name clBoom (some "Sprint 1") (some 1) =
      (none, [Ev.remote "getProjectTestPlans" ["1"]]) :=
  (c9_resolvers_amended clBoom (some "Sprint 1") "x" (some 1) 2 "boom"
    [Ev.remote "getProjectTestPlans" ["1"]]).1 rfl

/-- Claim C10 (implicit): `_create_test_case` never fails with a not-found
    result — an absent or unmatched project name silently falls back to the
    first listed project (likewise for the suite), and with a healthy
    facade the handler fails exactly when there are no projects or the
    chosen project has no suites. -/
theorem c10_create_case_fallback (c : TLClient) (name : String)
    (pn sn smry : Option String) (ps : List Project) (g : Nat → List Suite) (r0 : String)
    (hP : c.getProjects = Except.ok ps)
    (hS : ∀ n, c.getFirstLevelTestSuitesForTestProject n = Except.ok (g n))
    (hC : ∀ nm si pi au su, c.createTestCase nm si pi au su = Except.ok r0) :
    ((create_test_case_h c name pn sn smry).1.success = false ↔
       ps = [] ∨ ∃ pid, chosenProject ps pn = some pid ∧ g pid = [])
    ∧ (matchName (ps.map fun p => (p.id, p.name)) pn = none →
        chosenProject ps pn = (ps.head?).map (fun p => p.id))
    ∧ (∀ (p0 : Project) (rest : List Project), ps = p0 :: rest →
        ∀ pid, pid = pickId (ps.map fun p => (p.id, p.name)) pn p0.id →
        ∀ (s0 : Suite) (srest : List Suite), g pid = s0 :: srest →
        create_test_case_h c name pn sn smry =
          ({ action := some "create_test_case", success := true, data := some (.raw r0),
             message := "Caso '" ++ name ++ "' creado exitosamente en proyecto " ++
               toString pid },
           [Ev.remote "getProjects" [],
            Ev.remote "getFirstLevelTestSuitesForTestProject" [toString pid],
            Ev.remote "createTestCase"
              [name, toString (pickId ((s0 :: srest).map fun s => (s.id, s.name)) sn s0.id),
               toString pid, "admin", pyOrS smry ("Caso de prueba: " ++ name)]])) := by
  refine ⟨?_, ?_, ?_⟩
  · cases ps with
    | nil => simp [create_test_case_h, runH, callF, hP, chosenProject]
    | cons p0 rest =>
        have hS1 := hS (pickId ((p0 :: rest).map fun p => (p.id, p.name)) pn p0.id)
        cases hg : g (pickId ((p0 :: rest).map fun p => (p.id, p.name)) pn p0.id) with
        | nil =>
            rw [hg] at hS1
            simp only [create_test_case_h, runH, callF, hP, hS1, tl_bind_eq, tl_bind_ok,
              tl_bind_err, tl_pure_eq, chosenProject]
            constructor
            · intro _
              exact Or.inr ⟨_, rfl, hg⟩
            · intro _
              trivial
        | cons s0 srest =>
            rw [hg] at hS1
            have hC1 := hC name
              (pickId ((s0 :: srest).map fun s => (s.id, s.name)) sn s0.id)
              (pickId ((p0 :: rest).map fun p => (p.id, p.name)) pn p0.id)
              "admin" (pyOrS smry ("Caso de prueba: " ++ name))
            simp only [create_test_case_h, runH, callF, hP, hS1, hC1, tl_bind_eq, tl_bind_ok,
              tl_bind_err, tl_pure_eq, chosenProject]
            constructor
            · intro hfalse
              exact absurd hfalse (by simp)
            · rintro (h1 | ⟨pid2, hpe, hge⟩)
              · exact absurd h1 (by simp)
              · rw [Option.some_inj] at hpe
                rw [← hpe] at hge
                rw [hg] at hge
                exact absurd hge (by simp)
  · intro h
    cases ps with
    | nil => rfl
    | cons p0 rest =>
        simp only [List.map_cons] at h
        simp [chosenProject, pickId, h]
  · intro p0 rest hps pid hpid s0 srest hg
    subst hps
    subst hpid
    have hS1 := hS (pickId ((p0 :: rest).map fun p => (p.id, p.name)) pn p0.id)
    rw [hg] at hS1
    have hC1 := hC name
      (pickId ((s0 :: srest).map fun s => (s.id, s.name)) sn s0.id)
      (pickId ((p0 :: rest).map fun p => (p.id, p.name)) pn p0.id)
      "admin" (pyOrS smry ("Caso de prueba: " ++ name))
    simp only [create_test_case_h, runH, callF, hP, hS1, hC1, tl_bind_eq, tl_bind_ok,
      tl_bind_err, tl_pure_eq]
    simp

/-- Witness for C10: project name `Gamma` and suite name `Nope` match
    nothing, yet the case is created in the first project's first suite. -/
theorem c10_create_case_fallback_w :
    create_test_case_h clDemo "New case" (some "Gamma") (some "Nope") none =
      ({ action := some "create_test_case", success := true, data := some (.raw "ok"),
         message := "Caso 'New case' creado exitosamente en proyecto 1" },
       [Ev.remote "getProjects" [],
        Ev.remote "getFirstLevelTestSuitesForTestProject" ["1"],
        Ev.remote "createTestCase" ["New case", "10", "1", "admin", "Caso de prueba: New case"]]) :=
  (c10_create_case_fallback clDemo "New case" (some "Gamma") (some "Nope") none
      demoProjects (fun n => demoSuites n) "ok" rfl (fun _ => rfl)
      (fun _ _ _ _ _ => rfl)).2.2
    ⟨1, "Alpha", "ALP"⟩ [⟨2, "Beta", "BET"⟩] rfl 1 (by decide)
    ⟨10, "Auth"⟩ [⟨11, "Carts"⟩] (by decide)

/-- Claim C8 (spec-modelled): in the HeuristicRouter the search/question
    rule set is evaluated first, so every prompt containing a search or
    interrogative keyword — even together with a create/list keyword of a
    later rule — classifies as `search_tests`, never as the competing
    action. -/
theorem c8_search_rules_first (prompt : String)
    (h1 : (search_rule.keywords.any fun k => strContains (lowerStr prompt) k) = true)
    (_h2 : ∃ r ∈ heuristic_rules.tail,
       (r.keywords.any fun k => strContains (lowerStr prompt) k) = true) :
    hClassify prompt = HAction.search_tests := by
  simp only [hClassify, heuristic_rules, List.find?]
  rw [h1]
  rfl

/-- Witness for C8: an interrogative prompt that also contains the
    create/list keyword `pruebas` classifies as `search_tests`. -/
theorem c8_search_rules_first_w :
    hClassify "qué pruebas existen sobre login" = HAction.search_tests :=
  c8_search_rules_first "qué pruebas existen sobre login" (by decide)
    ⟨⟨["casos", "pruebas", "test"], HAction.list_test_cases⟩, by decide, by decide⟩

end TLApi
